import Mathlib

/-!
Shallow embedding of the live-mpl plotting toolkit (Python) for checking its
natural-language specification.  Definitions are translated from the source
files under `src/live_mpl/`; spec-side reference definitions are clearly
named `spec_...`.
-/

namespace LiveMpl

/-! ## LiveBase frame-index bookkeeping (`live_base.py`)

`LiveBase._idx` is a Python integer starting at 0, mutated only by
`_increment`, `_decrement`, `_jump_to_end` and `_jump_to_beginning`.
Python integers are unbounded, so the index is modelled as `Int`.
-/

/-- `LiveBase.max_idx` (live_base.py lines 128-134): returns 0 when
`len_data < 1`, else `len_data - 1`. -/
def max_idx (len_data : Nat) : Nat :=
  if len_data < 1 then 0 else len_data - 1

/-- `LiveBase._increment` (live_base.py lines 136-149):
`_idx += step; if _idx > max_idx: _idx = max_idx`. -/
def increment (len_data : Nat) (idx step : Int) : Int :=
  let i := idx + step
  if i > (max_idx len_data : Int) then (max_idx len_data : Int) else i

/-- `LiveBase._decrement` (live_base.py lines 151-164):
`_idx -= step; if _idx < 0: _idx = 0`. -/
def decrement (len_data : Nat) (idx step : Int) : Int :=
  let i := idx - step
  if i < 0 then 0 else i

/-- `LiveBase._jump_to_end` (live_base.py lines 166-168): `_idx = max_idx`. -/
def jump_to_end (len_data : Nat) : Int :=
  (max_idx len_data : Int)

/-- `LiveBase._jump_to_beginning` (live_base.py lines 170-172): `_idx = 0`. -/
def jump_to_beginning (_len_data : Nat) : Int :=
  0

/-- One index-mutating operation of `LiveBase`. -/
inductive IdxOp : Type
  | inc (step : Int)
  | dec (step : Int)
  | toEnd
  | toBeginning
deriving DecidableEq

/-- Apply one index operation to the current index. -/
def applyOp (len_data : Nat) (idx : Int) : IdxOp → Int
  | .inc s => increment len_data idx s
  | .dec s => decrement len_data idx s
  | .toEnd => jump_to_end len_data
  | .toBeginning => jump_to_beginning len_data

/-- Apply a sequence of index operations left to right. -/
def applyOps (len_data : Nat) (ops : List IdxOp) (idx : Int) : Int :=
  ops.foldl (applyOp len_data) idx

/-- An operation carries a non-negative step (jumps carry none). -/
def IdxOp.nonnegStep : IdxOp → Bool
  | .inc s => 0 ≤ s
  | .dec s => 0 ≤ s
  | .toEnd => true
  | .toBeginning => true

theorem max_idx_cast (T : Nat) (hT : 1 ≤ T) : (max_idx T : Int) = (T : Int) - 1 := by
  unfold max_idx
  have : ¬ T < 1 := by omega
  simp [this]
  omega

theorem applyOp_bounds (T : Nat) (hT : 1 ≤ T) (idx : Int) (op : IdxOp)
    (h0 : 0 ≤ idx) (h1 : idx ≤ (T : Int) - 1) (hop : op.nonnegStep = true) :
    0 ≤ applyOp T idx op ∧ applyOp T idx op ≤ (T : Int) - 1 := by
  have hm := max_idx_cast T hT
  cases op with
  | inc s =>
      simp only [IdxOp.nonnegStep, decide_eq_true_eq] at hop
      simp only [applyOp, increment, hm]
      split <;> omega
  | dec s =>
      simp only [IdxOp.nonnegStep, decide_eq_true_eq] at hop
      simp only [applyOp, decrement]
      split <;> omega
  | toEnd =>
      simp only [applyOp, jump_to_end, hm]
      omega
  | toBeginning =>
      simp only [applyOp, jump_to_beginning]
      omega

theorem applyOps_bounds (T : Nat) (hT : 1 ≤ T) (ops : List IdxOp) (idx : Int)
    (h0 : 0 ≤ idx) (h1 : idx ≤ (T : Int) - 1)
    (hops : ops.all IdxOp.nonnegStep = true) :
    0 ≤ applyOps T ops idx ∧ applyOps T ops idx ≤ (T : Int) - 1 := by
  induction ops generalizing idx with
  | nil => exact ⟨h0, h1⟩
  | cons op rest ih =>
      simp only [List.all_cons, Bool.and_eq_true] at hops
      have hstep := applyOp_bounds T hT idx op h0 h1 hops.1
      exact ih (applyOp T idx op) hstep.1 hstep.2 hops.2

/-- C1: for data of length `T ≥ 1`, a current index in `[0, T-1]` and a
non-negative step, `_increment` sets the index to `min(idx+step, T-1)`,
`_decrement` to `max(idx-step, 0)`, `_jump_to_end` to `T-1`,
`_jump_to_beginning` to `0`, and any sequence of such operations keeps the
index inside `[0, T-1]`. -/
theorem live_base_index_clamp (T : Nat) (idx step : Int) (ops : List IdxOp)
    (hT : 1 ≤ T) (h0 : 0 ≤ idx) (h1 : idx ≤ (T : Int) - 1) (hs : 0 ≤ step)
    (hops : ops.all IdxOp.nonnegStep = true) :
    increment T idx step = min (idx + step) ((T : Int) - 1)
    ∧ decrement T idx step = max (idx - step) 0
    ∧ jump_to_end T = (T : Int) - 1
    ∧ jump_to_beginning T = 0
    ∧ 0 ≤ applyOps T ops idx ∧ applyOps T ops idx ≤ (T : Int) - 1 := by
  have hm := max_idx_cast T hT
  refine ⟨?_, ?_, ?_, rfl, applyOps_bounds T hT ops idx h0 h1 hops⟩
  · simp only [increment, hm]
    split <;> omega
  · simp only [decrement]
    split <;> omega
  · simpa [jump_to_end] using hm

/-- Witness for C1 at `T = 3`, `idx = 1`, `step = 2` and a concrete
operation sequence. -/
theorem live_base_index_clamp_witness :
    increment 3 1 2 = min (1 + 2) ((3 : Int) - 1)
    ∧ decrement 3 1 2 = max (1 - 2) 0
    ∧ jump_to_end 3 = (3 : Int) - 1
    ∧ jump_to_beginning 3 = 0
    ∧ 0 ≤ applyOps 3 [.inc 5, .dec 1, .toEnd, .toBeginning, .inc 1] 1
    ∧ applyOps 3 [.inc 5, .dec 1, .toEnd, .toBeginning, .inc 1] 1 ≤ (3 : Int) - 1 :=
  live_base_index_clamp 3 1 2 [.inc 5, .dec 1, .toEnd, .toBeginning, .inc 1]
    (by decide) (by decide) (by decide) (by decide) (by decide)

/-- C9: for empty data (`len_data = 0`), `max_idx` returns 0 rather than -1,
and every index operation with a non-negative step leaves the index at 0, so
the index is never negative. -/
theorem live_base_empty_data (step : Int) (ops : List IdxOp)
    (hs : 0 ≤ step) (hops : ops.all IdxOp.nonnegStep = true) :
    max_idx 0 = 0
    ∧ increment 0 0 step = 0
    ∧ decrement 0 0 step = 0
    ∧ jump_to_end 0 = 0
    ∧ jump_to_beginning 0 = 0
    ∧ applyOps 0 ops 0 = 0 := by
  refine ⟨rfl, ?_, ?_, rfl, rfl, ?_⟩
  · simp only [increment, max_idx]
    split <;> omega
  · simp only [decrement]
    omega
  · induction ops with
    | nil => rfl
    | cons op rest ih =>
        simp only [List.all_cons, Bool.and_eq_true] at hops
        have hop : applyOp 0 0 op = 0 := by
          cases op with
          | inc s =>
              have hs0 : (0 : Int) ≤ s := by
                simpa [IdxOp.nonnegStep] using hops.1
              simp only [applyOp, increment, max_idx]
              split <;> omega
          | dec s =>
              have hs0 : (0 : Int) ≤ s := by
                simpa [IdxOp.nonnegStep] using hops.1
              simp only [applyOp, decrement]
              omega
          | toEnd => rfl
          | toBeginning => rfl
        simpa [applyOps, hop] using ih hops.2

/-- Witness for C9 at `step = 4` and a concrete operation sequence. -/
theorem live_base_empty_data_witness :
    max_idx 0 = 0
    ∧ increment 0 0 4 = 0
    ∧ decrement 0 0 4 = 0
    ∧ jump_to_end 0 = 0
    ∧ jump_to_beginning 0 = 0
    ∧ applyOps 0 [.inc 2, .toEnd, .dec 7, .toBeginning] 0 = 0 :=
  live_base_empty_data 4 [.inc 2, .toEnd, .dec 7, .toBeginning]
    (by decide) (by decide)

/-! ## Animation step (`animate.py`)

`_create_ani_func` (animate.py lines 73-97) returns `take_step(frame, idx)`
which runs `item._update_plot(idx)` for every plot and then collects the
artists.  `LiveBase._update_plot` (live_base.py lines 205-211) is declared as
`def _update_plot(self)` and accepts no index argument (`tab.py` calls it as
`plot._update_plot()`), so the Python call `item._update_plot(idx)` passes
one positional argument to a method accepting zero and raises `TypeError`.
-/

/-- Number of positional arguments (besides `self`) accepted by
`LiveBase._update_plot` (live_base.py line 205: `def _update_plot(self)`). -/
def update_plot_params : Nat := 0

/-- Number of positional arguments animate.py's `take_step` passes to
`_update_plot` (animate.py line 93: `item._update_plot(idx)`). -/
def take_step_args : Nat := 1

/-- A Python method call: succeeds only when the number of arguments given
matches the number of parameters accepted, else raises `TypeError`. -/
def py_call (param_count arg_count : Nat) (ret : α) : Except String α :=
  if arg_count = param_count then .ok ret else .error "TypeError"

/-- Minimal state of a registered live plot: its matplotlib artists,
identified opaquely. -/
structure PlotSim where
  artists : List Nat
deriving DecidableEq

/-- `take_step` from `_create_ani_func` (animate.py lines 91-95): for each
plot call `_update_plot(idx)`, then return the collected artists of all plots
in registration order. -/
def take_step (plots : List PlotSim) (_idx : Int) : Except String (List Nat) :=
  match plots.mapM (fun p => py_call update_plot_params take_step_args p) with
  | .error e => .error e
  | .ok _ => .ok (plots.flatMap (fun p => p.artists))

/-- C3 (code bug): one animation step on any non-empty plot list raises
`TypeError`, because `take_step` passes the frame index to
`LiveBase._update_plot`, which accepts no index argument; no plot is updated
and no artists are returned. -/
theorem take_step_type_error :
    take_step [⟨[0]⟩] 0 = .error "TypeError"
    ∧ update_plot_params = 0 ∧ take_step_args = 1 := by
  refine ⟨?_, rfl, rfl⟩
  rfl

/-! ## LiveComet plot data (`live_comet.py`)

`LiveComet._get_plot_data` (live_comet.py lines 156-161) returns
`(x[idx], y[idx], x[:idx], y[:idx])` for the stored 1-D arrays. -/

/-- The 1-D data arrays stored by a `LiveComet` (`self._x`, `self._y`). -/
structure CometData where
  x : List Int
  y : List Int
deriving DecidableEq

/-- `LiveComet.len_data` (live_comet.py lines 144-146): `self._x.size`. -/
def comet_len_data (c : CometData) : Nat := c.x.length

/-- `LiveComet._get_plot_data` (live_comet.py lines 156-161):
`head = (x[idx], y[idx])`, `tail = (x[:idx], y[:idx])` for the current
index (in range, so indexing is total). -/
def comet_plot_data (c : CometData) (idx : Nat) : Int × Int × List Int × List Int :=
  (c.x.getD idx 0, c.y.getD idx 0, c.x.take idx, c.y.take idx)

/-- C6: for a comet over 1-D arrays of length `T ≥ 1` and a current index
in `[0, T-1]`, the plot data has head `(x[idx], y[idx])` and tail the strict
prefix `x[0:idx], y[0:idx]` (length `idx`, followed in the array by the rest);
at `idx = 0` the tail is empty and at `idx = T-1` it is all points but the
last. -/
theorem comet_head_tail (c : CometData) (idx : Nat)
    (hlen : c.y.length = c.x.length) (hidx : idx < comet_len_data c) :
    (comet_plot_data c idx).1 = c.x.getD idx 0
    ∧ (comet_plot_data c idx).2.1 = c.y.getD idx 0
    ∧ (comet_plot_data c idx).2.2.1.length = idx
    ∧ (comet_plot_data c idx).2.2.1 ++ c.x.drop idx = c.x
    ∧ (comet_plot_data c idx).2.2.2.length = idx
    ∧ (comet_plot_data c idx).2.2.2 ++ c.y.drop idx = c.y
    ∧ (idx = 0 → (comet_plot_data c idx).2.2.1 = [] ∧ (comet_plot_data c idx).2.2.2 = [])
    ∧ (idx = comet_len_data c - 1 →
        (comet_plot_data c idx).2.2.1 = c.x.dropLast
        ∧ (comet_plot_data c idx).2.2.2 = c.y.dropLast) := by
  unfold comet_len_data at hidx
  refine ⟨rfl, rfl, ?_, ?_, ?_, ?_, ?_, ?_⟩
  · simp only [comet_plot_data]
    exact List.length_take_of_le (le_of_lt hidx)
  · exact List.take_append_drop idx c.x
  · simp only [comet_plot_data]
    exact List.length_take_of_le (by omega)
  · exact List.take_append_drop idx c.y
  · intro h
    subst h
    exact ⟨rfl, rfl⟩
  · intro h
    constructor
    · simp only [comet_plot_data, h, List.dropLast_eq_take, comet_len_data]
    · simp only [comet_plot_data, h, List.dropLast_eq_take, comet_len_data, hlen]

/-- Witness for C6 at `x = [1, 2, 3]`, `y = [4, 5, 6]`, `idx = 2`. -/
theorem comet_head_tail_witness :
    (comet_plot_data ⟨[1, 2, 3], [4, 5, 6]⟩ 2).1 = ([1, 2, 3] : List Int).getD 2 0
    ∧ (comet_plot_data ⟨[1, 2, 3], [4, 5, 6]⟩ 2).2.1 = ([4, 5, 6] : List Int).getD 2 0
    ∧ (comet_plot_data ⟨[1, 2, 3], [4, 5, 6]⟩ 2).2.2.1.length = 2
    ∧ (comet_plot_data ⟨[1, 2, 3], [4, 5, 6]⟩ 2).2.2.1 ++ ([1, 2, 3] : List Int).drop 2 = [1, 2, 3]
    ∧ (comet_plot_data ⟨[1, 2, 3], [4, 5, 6]⟩ 2).2.2.2.length = 2
    ∧ (comet_plot_data ⟨[1, 2, 3], [4, 5, 6]⟩ 2).2.2.2 ++ ([4, 5, 6] : List Int).drop 2 = [4, 5, 6]
    ∧ (2 = 0 → (comet_plot_data ⟨[1, 2, 3], [4, 5, 6]⟩ 2).2.2.1 = []
        ∧ (comet_plot_data ⟨[1, 2, 3], [4, 5, 6]⟩ 2).2.2.2 = [])
    ∧ (2 = comet_len_data ⟨[1, 2, 3], [4, 5, 6]⟩ - 1 →
        (comet_plot_data ⟨[1, 2, 3], [4, 5, 6]⟩ 2).2.2.1 = ([1, 2, 3] : List Int).dropLast
        ∧ (comet_plot_data ⟨[1, 2, 3], [4, 5, 6]⟩ 2).2.2.2 = ([4, 5, 6] : List Int).dropLast) :=
  comet_head_tail ⟨[1, 2, 3], [4, 5, 6]⟩ 2 (by decide) (by decide)

/-! ## LiveStackBar (`live_stackbar.py`)

`_y_data` is a `(T, B, S)` array: `T` epochs (`len_data`), `B` bars along the
x-axis (`num_cols`), `S` stacked categories (`num_stacks`).  Values are
modelled as integers. -/

/-- The `(T, B, S)` data array `LiveStackBar._y_data`, as a function of
epoch, bar and stack indices. -/
structure StackData where
  T : Nat
  B : Nat
  S : Nat
  y : Nat → Nat → Nat → Int

/-- Height set by `LiveStackBar._update_artists` (live_stackbar.py line 114)
on the patch of bar `b` in stack `s` at frame `idx`:
`patch.set_height(yval)` with `yval = plot_y.T[s][b] = y_data[idx][b][s]`. -/
def patch_height (d : StackData) (idx s b : Nat) : Int :=
  d.y idx b s

/-- Bottom set by `LiveStackBar._update_artists` (live_stackbar.py
lines 109-117) on the patch of bar `b` in stack `s` at frame `idx`.
`bottoms` starts at zero and, after each stack's inner loop, the code runs
`bottoms += yval` where `yval` is the leftover inner-loop variable, i.e. the
value of the LAST bar (`b = B-1`) of that stack, added to every entry of
`bottoms`. -/
def patch_bottom (d : StackData) (idx : Nat) : Nat → Nat → Int
  | 0, _ => 0
  | s + 1, b => patch_bottom d idx s b + d.y idx (d.B - 1) s

/-- Cumulative (top-of-bar) height of bar `b` at frame `idx` after
`_update_artists`: bottom of the top stack plus its height (needs `S ≥ 1`). -/
def bar_total (d : StackData) (idx b : Nat) : Int :=
  patch_bottom d idx (d.S - 1) b + patch_height d idx (d.S - 1) b

/-- Spec-side reference: the baseline of bar `b` in stack `s` is the sum of
the per-category values of stacks `0..s-1` for that same bar. -/
def spec_bottom (d : StackData) (idx s b : Nat) : Int :=
  ∑ j ∈ Finset.range s, d.y idx b j

/-- Spec-side reference: the cumulative height of bar `b` at frame `idx` is
the sum of all per-category values for bar `b`. -/
def spec_total (d : StackData) (idx b : Nat) : Int :=
  ∑ j ∈ Finset.range d.S, d.y idx b j

/-- Failing input for C2: one frame, two bars, two stacks, with
`y[0][b][s]`: bar 0 has category values `[1, 10]`, bar 1 has `[2, 20]`. -/
def stackEx : StackData :=
  ⟨1, 2, 2, fun _ b s =>
    if b = 0 then (if s = 0 then 1 else 10) else (if s = 0 then 2 else 20)⟩

/-- C2 (code bug): after `_update_artists`, the bottom of bar 0's stack-1
patch is 2 (the previous stack's value of the LAST bar, leaked from the inner
loop) instead of 1 (bar 0's own stack-0 value), so bar 0's cumulative height
is 12 instead of the claimed sum 11. -/
theorem stackbar_update_bug :
    patch_bottom stackEx 0 1 0 = 2
    ∧ spec_bottom stackEx 0 1 0 = 1
    ∧ bar_total stackEx 0 0 = 12
    ∧ spec_total stackEx 0 0 = 11
    ∧ (2 : Int) ≠ 1 ∧ (12 : Int) ≠ 11 := by
  refine ⟨rfl, ?_, rfl, ?_, by decide, by decide⟩
  · simp [spec_bottom, stackEx, Finset.sum_range_succ]
  · simp [spec_total, stackEx, Finset.sum_range_succ]

/-- `np.sum(y, axis=2)` at epoch `t`, bar `b` (live_stackbar.py line 170):
the cumulative height of bar `b` at epoch `t`. -/
def heights (d : StackData) (t b : Nat) : Int :=
  ((List.range d.S).map (fun s => d.y t b s)).sum

/-- `np.max` over a non-empty list (errors on an empty one). -/
def np_max : List Int → Option Int
  | [] => none
  | a :: rest => some (rest.foldl max a)

/-- `LiveStackBar._calc_max_heights` (live_stackbar.py lines 168-171):
per-epoch maximum over bars of the cumulative bar height, precomputed at
construction (`_max_heights`). -/
def calc_max_heights (d : StackData) : List (Option Int) :=
  (List.range d.T).map (fun t => np_max ((List.range d.B).map (fun b => heights d t b)))

/-- Upper y-limit returned by `LiveStackBar._get_data_axis_limits`
(live_stackbar.py lines 122-128): `self._max_heights[self.current_idx]`. -/
def stackbar_upper_ylim (d : StackData) (idx : Nat) : Option Int :=
  (calc_max_heights d).getD idx none

/-- Spec-side reference for C7's words: the maximum cumulative bar height
taken across ALL frames. -/
def max_height_all_frames (d : StackData) : Option Int :=
  np_max ((List.range d.T).flatMap (fun t => (List.range d.B).map (fun b => heights d t b)))

/-- Counterexample data for C7: two frames, one bar, one stack, with
cumulative heights 1 (frame 0) and 5 (frame 1). -/
def stackEx2 : StackData :=
  ⟨2, 1, 1, fun t _ _ => if t = 0 then 1 else 5⟩

/-- C7 counterexample: at frame 0 the reported upper y-limit is 1, the
per-frame maximum, while the maximum cumulative height across all frames
is 5. -/
theorem stackbar_ylim_counterexample :
    stackbar_upper_ylim stackEx2 0 = some 1
    ∧ max_height_all_frames stackEx2 = some 5
    ∧ some (1 : Int) ≠ some (5 : Int) := by
  refine ⟨?_, ?_, by decide⟩ <;> rfl

theorem foldl_max_spec (l : List Int) (a : Int) :
    (l.foldl max a = a ∨ l.foldl max a ∈ l)
    ∧ a ≤ l.foldl max a ∧ ∀ x ∈ l, x ≤ l.foldl max a := by
  induction l generalizing a with
  | nil => simp
  | cons b rest ih =>
      obtain ⟨hmem, hle, hall⟩ := ih (max a b)
      refine ⟨?_, ?_, ?_⟩
      · rcases hmem with h | h
        · rcases max_choice a b with hab | hab
          · left
            rw [List.foldl_cons, h, hab]
          · right
            rw [List.foldl_cons, h, hab]
            exact List.mem_cons_self b rest
        · right
          rw [List.foldl_cons]
          exact List.mem_cons_of_mem b h
      · exact le_trans (le_max_left a b) hle
      · intro x hx
        rcases List.mem_cons.mp hx with hx | hx
        · subst hx
          exact le_trans (le_max_right a x) hle
        · exact hall x hx

theorem np_max_spec (l : List Int) (h : l ≠ []) :
    np_max l ≠ none
    ∧ (np_max l).getD 0 ∈ l
    ∧ ∀ x ∈ l, x ≤ (np_max l).getD 0 := by
  match l with
  | [] => exact absurd rfl h
  | a :: rest =>
      obtain ⟨hmem, hle, hall⟩ := foldl_max_spec rest a
      refine ⟨by simp [np_max], ?_, ?_⟩
      · simp only [np_max, Option.getD_some]
        rcases hmem with h | h
        · rw [h]
          exact List.mem_cons_self a rest
        · exact List.mem_cons_of_mem a h
      · intro x hx
        simp only [np_max, Option.getD_some]
        rcases List.mem_cons.mp hx with hx | hx
        · subst hx
          exact hle
        · exact hall x hx

theorem getD_range_map {α : Type} (f : Nat → α) (n i : Nat) (d : α) (h : i < n) :
    ((List.range n).map f).getD i d = f i := by
  rw [List.getD_eq_getElem?_getD]
  simp [List.getElem?_map, List.getElem?_range h]

/-- C7 amended: for every valid frame index, the reported upper y-limit is
the maximum cumulative (summed-over-stacks) bar height across the bars AT THE
CURRENT FRAME — it is attained by some bar of that frame and bounds every bar
of that frame — and the per-frame maxima are precomputed once at construction
(`calc_max_heights`). -/
theorem stackbar_ylim_is_current_frame_max (d : StackData) (idx b : Nat)
    (hidx : idx < d.T) (hb : b < d.B) :
    stackbar_upper_ylim d idx = (calc_max_heights d).getD idx none
    ∧ stackbar_upper_ylim d idx ≠ none
    ∧ (stackbar_upper_ylim d idx).getD 0 ∈ (List.range d.B).map (fun i => heights d idx i)
    ∧ heights d idx b ≤ (stackbar_upper_ylim d idx).getD 0 := by
  have hform : stackbar_upper_ylim d idx
      = np_max ((List.range d.B).map (fun i => heights d idx i)) := by
    unfold stackbar_upper_ylim calc_max_heights
    exact getD_range_map _ d.T idx none hidx
  have hne : (List.range d.B).map (fun i => heights d idx i) ≠ [] := by
    simp only [ne_eq, List.map_eq_nil_iff, List.range_eq_nil]
    omega
  obtain ⟨h1, h2, h3⟩ := np_max_spec _ hne
  refine ⟨rfl, ?_, ?_, ?_⟩
  · rw [hform]
    exact h1
  · rw [hform]
    exact h2
  · rw [hform]
    exact h3 (heights d idx b) (List.mem_map_of_mem _ (List.mem_range.mpr hb))

/-- Witness for the amended C7 at `stackEx2`, frame 0, bar 0. -/
theorem stackbar_ylim_is_current_frame_max_witness :
    stackbar_upper_ylim stackEx2 0 = (calc_max_heights stackEx2).getD 0 none
    ∧ stackbar_upper_ylim stackEx2 0 ≠ none
    ∧ (stackbar_upper_ylim stackEx2 0).getD 0
        ∈ (List.range stackEx2.B).map (fun i => heights stackEx2 0 i)
    ∧ heights stackEx2 0 0 ≤ (stackbar_upper_ylim stackEx2 0).getD 0 :=
  stackbar_ylim_is_current_frame_max stackEx2 0 0 (by decide) (by decide)

/-! ## Construction-time validation (`live_line.py`, `live_comet.py`)

Arrays are modelled by their shapes (lists of dimension sizes). -/

/-- A numpy array shape. -/
abbrev Shape := List Nat

/-- `np.atleast_2d`: a 0-d shape becomes `(1, 1)`, a 1-d shape `(n,)`
becomes `(1, n)`, higher-rank shapes are unchanged. -/
def atleast_2d : Shape → Shape
  | [] => [1, 1]
  | [n] => [1, n]
  | s => s

/-- `np.atleast_1d`: a 0-d shape becomes `(1,)`, others are unchanged. -/
def atleast_1d : Shape → Shape
  | [] => [1]
  | s => s

/-- `np.squeeze`: removes every axis of size 1. -/
def squeeze (s : Shape) : Shape :=
  s.filter (fun n => n != 1)

/-- The exceptions of `exceptions.py`, each carrying the data its
constructor stores. -/
inductive PlotError : Type
  | inconsistentArrayShape (x_shape y_shape : Shape)
  | invalidIterationAxis (iter_axis : Int) (num_dims : Nat)
  | arrayNot1D (ndim : Nat)
deriving DecidableEq

/-- `LiveLine._validate_data` (live_line.py lines 125-129): first the shape
check, then the iteration-axis check against `x_data.ndim`. -/
def line_validate_data (x_shape y_shape : Shape) (iter_axis : Int) : Option PlotError :=
  if x_shape ≠ y_shape then
    some (.inconsistentArrayShape x_shape y_shape)
  else if iter_axis < 0 ∨ (x_shape.length : Int) ≤ iter_axis then
    some (.invalidIterationAxis iter_axis x_shape.length)
  else
    none

/-- The shape/axis state a successful `LiveLine` construction ends with. -/
structure LiveLineState : Type where
  x_shape : Shape
  y_shape : Shape
  iter_axis : Int
deriving DecidableEq

/-- Raising semantics: a failed check aborts construction with its error,
otherwise construction completes with the given state. -/
def raise_or {α : Type} (chk : Option PlotError) (ok : α) : Except PlotError α :=
  match chk with
  | some e => .error e
  | none => .ok ok

/-- `LiveLine.__post_init__` (live_line.py lines 131-138): promote both
arrays with `np.atleast_2d`; if `np.atleast_1d(x_data.squeeze()).ndim == 1`
overwrite `iter_axis` with 0; then run `_validate_data`. -/
def live_line_init (x_shape y_shape : Shape) (iter_axis : Int) :
    Except PlotError LiveLineState :=
  let x2 := atleast_2d x_shape
  let y2 := atleast_2d y_shape
  let ax := if (atleast_1d (squeeze x2)).length = 1 then 0 else iter_axis
  raise_or (line_validate_data x2 y2 ax) ⟨x2, y2, ax⟩

/-- `LiveComet._validate_data` (live_comet.py lines 170-177): dimensionality
checks on `x` then `y` BEFORE the shape-consistency check. -/
def comet_validate_data (x_shape y_shape : Shape) : Option PlotError :=
  if 1 < x_shape.length then
    some (.arrayNot1D x_shape.length)
  else if 1 < y_shape.length then
    some (.arrayNot1D y_shape.length)
  else if x_shape ≠ y_shape then
    some (.inconsistentArrayShape x_shape y_shape)
  else
    none

/-- `LiveComet.__post_init__` (live_comet.py lines 190-196): validation runs
first; on success the arrays are stored unchanged. -/
def live_comet_init (x_shape y_shape : Shape) : Except PlotError Unit :=
  raise_or (comet_validate_data x_shape y_shape) ()

/-- C4 counterexample: constructing a Comet from `x = zeros((5, 6))` and
`y = zeros((5, 5))` raises `ArrayNot1D`, not the shape-mismatch error
`InconsistentArrayShape` the claim promises. -/
theorem comet_shape_mismatch_counterexample :
    live_comet_init [5, 6] [5, 5] = .error (.arrayNot1D 2)
    ∧ comet_validate_data [5, 6] [5, 5] = some (.arrayNot1D 2)
    ∧ PlotError.arrayNot1D 2 ≠ .inconsistentArrayShape [5, 6] [5, 5] := by
  refine ⟨rfl, rfl, by decide⟩

/-- C4 amended: a Line whose arrays still differ in shape after `atleast_2d`
promotion raises `InconsistentArrayShape` naming both promoted shapes; a
Comet raises `InconsistentArrayShape` naming both shapes when both arrays are
1-D and the shapes differ, while a Comet input of more than one dimension
raises `ArrayNot1D` instead; in each case construction stops at the error. -/
theorem shape_mismatch_raises (xs ys us vs ws zs : Shape) (axis : Int)
    (hline : atleast_2d xs ≠ atleast_2d ys)
    (hu : us.length ≤ 1) (hv : vs.length ≤ 1) (huv : us ≠ vs)
    (hw : 1 < ws.length) :
    live_line_init xs ys axis
      = .error (.inconsistentArrayShape (atleast_2d xs) (atleast_2d ys))
    ∧ live_comet_init us vs = .error (.inconsistentArrayShape us vs)
    ∧ live_comet_init ws zs = .error (.arrayNot1D ws.length) := by
  refine ⟨?_, ?_, ?_⟩
  · simp only [live_line_init, line_validate_data, if_pos hline, raise_or]
  · have hu2 : ¬ 1 < us.length := by omega
    have hv2 : ¬ 1 < vs.length := by omega
    simp only [live_comet_init, comet_validate_data, if_neg hu2, if_neg hv2, if_pos huv,
      raise_or]
  · simp only [live_comet_init, comet_validate_data, if_pos hw, raise_or]

/-- Witness for the amended C4: Line at shapes `(5, 6)` / `(5, 5)`, Comet at
1-D shapes `(5,)` / `(6,)`, and Comet at the 2-D shape `(5, 6)`. -/
theorem shape_mismatch_raises_witness :
    live_line_init [5, 6] [5, 5] 0
      = .error (.inconsistentArrayShape (atleast_2d [5, 6]) (atleast_2d [5, 5]))
    ∧ live_comet_init [5] [6] = .error (.inconsistentArrayShape [5] [6])
    ∧ live_comet_init [5, 6] [5, 5] = .error (.arrayNot1D ([5, 6] : Shape).length) :=
  shape_mismatch_raises [5, 6] [5, 5] [5] [6] [5, 6] [5, 5] 0
    (by decide) (by decide) (by decide) (by decide) (by decide)

/-- C5 counterexample: `x = y = zeros((1, 5))` is 2-dimensional data and
`iter_axis = 2` lies outside `[0, 2)`, yet construction succeeds (the data
squeezes to one dimension, so `iter_axis` is silently reset to 0) instead of
raising `InvalidIterationAxis`. -/
theorem line_invalid_axis_counterexample :
    live_line_init [1, 5] [1, 5] 2 = .ok ⟨[1, 5], [1, 5], 0⟩
    ∧ ([1, 5] : Shape).length = 2 := by
  refine ⟨rfl, rfl⟩

theorem squeeze_atleast_2d (s : Shape) : squeeze (atleast_2d s) = squeeze s := by
  match s with
  | [] => rfl
  | [n] => simp [atleast_2d, squeeze]
  | a :: b :: rest => rfl

theorem atleast_2d_of_squeeze_long (s : Shape) (h : 1 < (squeeze s).length) :
    atleast_2d s = s := by
  match s with
  | [] => simp [squeeze] at h
  | [n] =>
      exfalso
      have : (squeeze [n]).length ≤ ([n] : Shape).length := List.length_filter_le _ _
      simp at this
      omega
  | a :: b :: rest => rfl

/-- C5 amended: for every input data array that does NOT squeeze to one
dimension (it keeps more than one non-unit axis) and every configured
iteration axis outside `[0, ndim)`, constructing a `LiveLine` raises
`InvalidIterationAxis`; in particular for 2-dimensional data with both
dimensions greater than 1, `iter_axis = 2` raises and `iter_axis = -1`
raises. -/
theorem line_invalid_axis_raises (xs : Shape) (axis : Int)
    (hsq : 1 < (squeeze xs).length)
    (haxis : axis < 0 ∨ (xs.length : Int) ≤ axis) :
    live_line_init xs xs axis = .error (.invalidIterationAxis axis xs.length) := by
  have h2 : atleast_2d xs = xs := atleast_2d_of_squeeze_long xs hsq
  have hsq2 : ¬ (atleast_1d (squeeze xs)).length = 1 := by
    match hs : squeeze xs with
    | [] => rw [hs] at hsq; simp at hsq
    | [n] => rw [hs] at hsq; simp at hsq
    | a :: b :: rest => simp [atleast_1d]
  have hval : line_validate_data xs xs axis
      = some (.invalidIterationAxis axis xs.length) := by
    unfold line_validate_data
    rw [if_neg (by simp), if_pos haxis]
  simp only [live_line_init, h2, squeeze_atleast_2d, if_neg hsq2, hval, raise_or]

/-- Witness for the amended C5 at `x = zeros((5, 6))`, `iter_axis = 2`. -/
theorem line_invalid_axis_raises_witness :
    live_line_init [5, 6] [5, 6] 2
      = .error (.invalidIterationAxis 2 ([5, 6] : Shape).length) :=
  line_invalid_axis_raises [5, 6] 2 (by decide) (by decide)

/-- Does a construction result carry an `InvalidIterationAxis` error? -/
def is_invalid_axis_error : Except PlotError LiveLineState → Bool
  | .error (.invalidIterationAxis _ _) => true
  | _ => false

/-- C10: for every input array that squeezes to one dimension (in particular
every 1-D array), `LiveLine.__post_init__` overwrites the configured
`iter_axis` with 0 before validation, so construction never raises
`InvalidIterationAxis` for any configured axis, including negative ones; when
the promoted shapes also match, construction succeeds with `iter_axis = 0`. -/
theorem atleast_2d_length (s : Shape) : 2 ≤ (atleast_2d s).length := by
  match s with
  | [] => simp [atleast_2d]
  | [n] => simp [atleast_2d]
  | a :: b :: rest => simp [atleast_2d]

theorem line_1d_axis_reset (xs ys : Shape) (axis : Int)
    (hsq : (squeeze xs).length ≤ 1) :
    is_invalid_axis_error (live_line_init xs ys axis) = false
    ∧ (atleast_2d xs = atleast_2d ys →
        live_line_init xs ys axis = .ok ⟨atleast_2d xs, atleast_2d ys, 0⟩) := by
  have hax : (atleast_1d (squeeze xs)).length = 1 := by
    match hs : squeeze xs with
    | [] => rfl
    | [n] => rfl
    | a :: b :: rest => rw [hs] at hsq; simp at hsq
  have hlen2 : 2 ≤ (atleast_2d xs).length := atleast_2d_length xs
  have hcond : ¬ ((0 : Int) < 0 ∨ ((atleast_2d xs).length : Int) ≤ (0 : Int)) := by
    omega
  constructor
  · by_cases hxy : atleast_2d xs = atleast_2d ys
    · have hval : line_validate_data (atleast_2d xs) (atleast_2d ys) 0 = none := by
        unfold line_validate_data
        rw [if_neg (by simp [hxy]), if_neg hcond]
      simp only [live_line_init, squeeze_atleast_2d, hax, if_pos, hval, raise_or,
        is_invalid_axis_error]
    · have hval : line_validate_data (atleast_2d xs) (atleast_2d ys) 0
          = some (.inconsistentArrayShape (atleast_2d xs) (atleast_2d ys)) := by
        unfold line_validate_data
        rw [if_pos hxy]
      simp only [live_line_init, squeeze_atleast_2d, hax, if_pos, hval, raise_or,
        is_invalid_axis_error]
  · intro hxy
    have hval : line_validate_data (atleast_2d xs) (atleast_2d ys) 0 = none := by
      unfold line_validate_data
      rw [if_neg (by simp [hxy]), if_neg hcond]
    simp only [live_line_init, squeeze_atleast_2d, hax, if_pos, hval, raise_or]

/-- Witness for C10 at the 1-D shape `(7,)` with `iter_axis = -1`. -/
theorem line_1d_axis_reset_witness :
    is_invalid_axis_error (live_line_init [7] [7] (-1)) = false
    ∧ (atleast_2d [7] = atleast_2d [7] →
        live_line_init [7] [7] (-1) = .ok ⟨atleast_2d [7], atleast_2d [7], 0⟩) :=
  line_1d_axis_reset [7] [7] (-1) (by decide)

/-! ## LiveStreamlines serialization (`live_streamlines.py`)

`pickle` dumps the dict produced by `asdict` (lines 175-188) and
`load_from_pickle` (lines 190-195) reconstructs via `cls(**stream_dict)`.
Array and geometry values are modelled opaquely; what matters for the
round trip is which keys the dict carries and which the dataclass
constructor requires. -/

/-- A value stored in the pickled dict: an opaque data array, the per-frame
streamline cache (one geometry count per frame) or the per-frame arrow cache
(one list of arrow ids per frame). -/
inductive PyVal : Type
  | arr (id : Nat)
  | lineList (frames : List Nat)
  | arrowList (frames : List (List Nat))
deriving DecidableEq

/-- The fields of a `LiveStreamlines` instance.  `ax` (inherited from
`LiveBase`, live_base.py line 60) has no default and is required by the
dataclass constructor; `_streamlines` and `_streamarrows` default to `[]`. -/
structure LiveStreamlines : Type where
  ax : Nat
  x_data : Nat
  y_data : Nat
  u_data : Nat
  v_data : Nat
  color_data : Nat
  streamlines : List Nat
  streamarrows : List (List Nat)
deriving DecidableEq

/-- `LiveStreamlines.asdict` (live_streamlines.py lines 175-184): the pickled
dict carries the five data arrays and the two caches — but not `ax`. -/
def asdict (s : LiveStreamlines) : List (String × PyVal) :=
  [("x_data", .arr s.x_data), ("y_data", .arr s.y_data),
   ("u_data", .arr s.u_data), ("v_data", .arr s.v_data),
   ("color_data", .arr s.color_data),
   ("_streamlines", .lineList s.streamlines),
   ("_streamarrows", .arrowList s.streamarrows)]

/-- The dataclass constructor invoked by `cls(**stream_dict)`: every field
without a default (`ax` and the five data arrays) must be supplied, else
Python raises `TypeError`; the two caches fall back to their empty
defaults. -/
def dataclass_init (kwargs : List (String × PyVal)) : Except String LiveStreamlines :=
  match kwargs.lookup "ax", kwargs.lookup "x_data", kwargs.lookup "y_data",
      kwargs.lookup "u_data", kwargs.lookup "v_data", kwargs.lookup "color_data" with
  | some (.arr a), some (.arr x), some (.arr y), some (.arr u), some (.arr v),
      some (.arr c) =>
      .ok { ax := a, x_data := x, y_data := y, u_data := u, v_data := v,
            color_data := c,
            streamlines :=
              (match kwargs.lookup "_streamlines" with
               | some (.lineList l) => l
               | _ => []),
            streamarrows :=
              (match kwargs.lookup "_streamarrows" with
               | some (.arrowList l) => l
               | _ => []) }
  | _, _, _, _, _, _ => .error "TypeError"

/-- `LiveStreamlines.load_from_pickle` (live_streamlines.py lines 190-195):
reconstruct an instance from the unpickled dict via `cls(**stream_dict)`. -/
def load_from_pickle (kwargs : List (String × PyVal)) : Except String LiveStreamlines :=
  dataclass_init kwargs

/-- A concrete instance whose streamline cache holds two frames with
geometry counts 3 and 4 and matching per-frame arrow caches. -/
def streamEx : LiveStreamlines :=
  ⟨9, 1, 2, 3, 4, 5, [3, 4], [[1], [2, 3]]⟩

/-- C8 (code bug): the serialize→deserialize round trip never yields an
instance — `asdict` omits the required `ax` field, so `cls(**stream_dict)`
inside `load_from_pickle` raises `TypeError` for every pickled instance,
including one with a populated two-frame cache. -/
theorem streamlines_round_trip_bug :
    load_from_pickle (asdict streamEx) = .error "TypeError"
    ∧ (asdict streamEx).lookup "ax" = none
    ∧ streamEx.streamlines = [3, 4] := by
  refine ⟨rfl, rfl, rfl⟩

end LiveMpl
